import Mathlib

/-!
Verification of the flash-sale backend (Go) against its natural-language
specification.  The definitions below are a shallow embedding of the
repository's code: the Redis Lua scripts and client wrappers
(internal/database redis client), the PostgreSQL record store
(internal/database/postgres.go), the checkout and purchase HTTP handlers
(internal/handlers), the sale service (internal/services/sale_service.go)
and the item service (internal/services/item_service.go).

Conventions of the embedding:
* Redis counters are total functions with absent keys read as 0, exactly
  as the Lua scripts do via tonumber(GET or 0); INCR on an absent key
  yields 1, which coincides with reading 0 and adding 1.
* TTL bookkeeping (EXPIRE) has no observable effect on any verified
  property and is not represented.
* Go float64 item prices are modelled as exact rationals; every verified
  property about prices is an equality between two evaluations of the
  same expression, so it is insensitive to the numeric representation.
* Wall-clock instants are integers (Unix seconds); Go time.Before is <
  and time.After is >.
* Fallible record-store calls are modelled with explicit success flags
  (an oracle record), since any individual SQL statement may fail.
-/

namespace FlashSale

/-- State of the Redis counter store, as touched by the Lua scripts in the
redis client file: sold counter per sale, per-user per-sale purchase count,
available counter per sale, the active-sale pointer, and the
sale info cache hash written by the setup script. -/
structure CounterState where
  sold : Nat → Nat
  userCount : String → Nat → Nat
  available : Nat → Nat
  activeSaleId : Nat
  saleCache : Nat → Option (Nat × Nat × Nat × Bool)

/-- The reply of the atomic purchase Lua script: the 4-element array
{ok, message, sold, user_count} it returns. -/
structure PurchaseReply where
  ok : Bool
  msg : String
  sold : Nat
  userCount : Nat
  deriving DecidableEq, Repr

/-- Embedding of atomicPurchaseLua: read sold and user_count (absent is 0);
if sold at or above max_items reply sale_sold_out without mutation; else if
user_count at or above max_user_items reply user_limit_exceeded without
mutation; else INCR both counters and reply success with the new values. -/
def atomicPurchase (st : CounterState) (saleId : Nat) (userId : String)
    (maxItems maxUserItems : Nat) : PurchaseReply × CounterState :=
  let sold := st.sold saleId
  let uc := st.userCount userId saleId
  if sold ≥ maxItems then
    (⟨false, "sale_sold_out", sold, uc⟩, st)
  else if uc ≥ maxUserItems then
    (⟨false, "user_limit_exceeded", sold, uc⟩, st)
  else
    (⟨true, "success", sold + 1, uc + 1⟩,
      { st with
        sold := Function.update st.sold saleId (sold + 1)
        userCount := fun u s =>
          if u = userId ∧ s = saleId then uc + 1 else st.userCount u s })

/-- Embedding of setupSaleLua: unconditionally SET sold to 0, available to
items_available, the active_sale_id pointer to sale_id, and write the sale
info cache hash. -/
def setupSale (st : CounterState) (saleId items : Nat) : CounterState :=
  { st with
    sold := Function.update st.sold saleId 0
    available := Function.update st.available saleId items
    activeSaleId := saleId
    saleCache := Function.update st.saleCache saleId (some (saleId, items, 0, true)) }

/-- One invocation of the atomic purchase script in a sequence on a fixed
sale: the calling user and the per-user cap passed for that call. -/
structure PurchaseReq where
  userId : String
  maxUserItems : Nat

/-- Run a sequence of atomic purchase invocations on the same sale with a
fixed global cap, returning the final counter state and the number of
invocations whose reply was success. -/
def runPurchases (st : CounterState) (saleId maxItems : Nat) :
    List PurchaseReq → CounterState × Nat
  | [] => (st, 0)
  | r :: rs =>
    let step := atomicPurchase st saleId r.userId maxItems r.maxUserItems
    let rest := runPurchases step.2 saleId maxItems rs
    (rest.1, (if step.1.ok then 1 else 0) + rest.2)

/-- A counter state with every key absent (all counters read as 0). -/
def emptyCounters : CounterState :=
  ⟨fun _ => 0, fun _ _ => 0, fun _ => 0, 0, fun _ => none⟩

lemma atomicPurchase_sold_eq (st : CounterState) (saleId : Nat) (userId : String)
    (maxItems maxUserItems : Nat) :
    (atomicPurchase st saleId userId maxItems maxUserItems).2.sold saleId =
      st.sold saleId +
        (if (atomicPurchase st saleId userId maxItems maxUserItems).1.ok then 1 else 0) := by
  unfold atomicPurchase
  by_cases h1 : st.sold saleId ≥ maxItems
  · simp [h1]
  · by_cases h2 : st.userCount userId saleId ≥ maxUserItems
    · simp [h1, h2]
    · simp [h1, h2, Function.update]

lemma atomicPurchase_sold_le (st : CounterState) (saleId : Nat) (userId : String)
    (maxItems maxUserItems : Nat) (h : st.sold saleId ≤ maxItems) :
    (atomicPurchase st saleId userId maxItems maxUserItems).2.sold saleId ≤ maxItems := by
  unfold atomicPurchase
  by_cases h1 : st.sold saleId ≥ maxItems
  · simpa [h1] using h
  · by_cases h2 : st.userCount userId saleId ≥ maxUserItems
    · simpa [h1, h2] using h
    · simp [h1, h2, Function.update]
      omega

lemma runPurchases_sold_eq (saleId maxItems : Nat) (reqs : List PurchaseReq) :
    ∀ st : CounterState,
      (runPurchases st saleId maxItems reqs).1.sold saleId =
        st.sold saleId + (runPurchases st saleId maxItems reqs).2 := by
  induction reqs with
  | nil => intro st; simp [runPurchases]
  | cons r rs ih =>
    intro st
    simp only [runPurchases]
    rw [ih]
    rw [atomicPurchase_sold_eq]
    omega

lemma runPurchases_sold_le (saleId maxItems : Nat) (reqs : List PurchaseReq) :
    ∀ st : CounterState, st.sold saleId ≤ maxItems →
      (runPurchases st saleId maxItems reqs).1.sold saleId ≤ maxItems := by
  induction reqs with
  | nil => intro st h; simpa [runPurchases] using h
  | cons r rs ih =>
    intro st h
    simp only [runPurchases]
    exact ih _ (atomicPurchase_sold_le st saleId r.userId maxItems r.maxUserItems h)

/-- C1: for every sequence of atomic purchase invocations on the same
sale_id starting from an absent (zero) sold counter, the final sold counter
equals the number of invocations that replied success, and the sold counter
never exceeds max_items after any prefix of the sequence. -/
theorem atomicPurchase_sequence_sold_invariant (st : CounterState)
    (saleId maxItems : Nat) (reqs : List PurchaseReq) (h0 : st.sold saleId = 0) :
    (runPurchases st saleId maxItems reqs).1.sold saleId =
      (runPurchases st saleId maxItems reqs).2 ∧
    ∀ n : Nat, (runPurchases st saleId maxItems (reqs.take n)).1.sold saleId ≤ maxItems := by
  constructor
  · rw [runPurchases_sold_eq, h0, Nat.zero_add]
  · intro n
    exact runPurchases_sold_le saleId maxItems (reqs.take n) st
      (by rw [h0]; exact Nat.zero_le maxItems)

/-- Witness for C1 at a concrete input: three callers against a cap of 2
starting from the empty counter state. -/
theorem atomicPurchase_sequence_sold_invariant_witness :
    emptyCounters.sold 1 = 0 ∧
    ((runPurchases emptyCounters 1 2 [⟨"a", 10⟩, ⟨"b", 10⟩, ⟨"c", 10⟩]).1.sold 1 =
      (runPurchases emptyCounters 1 2 [⟨"a", 10⟩, ⟨"b", 10⟩, ⟨"c", 10⟩]).2 ∧
     ∀ n : Nat,
       (runPurchases emptyCounters 1 2 ([⟨"a", 10⟩, ⟨"b", 10⟩, ⟨"c", 10⟩].take n)).1.sold 1 ≤ 2) :=
  ⟨rfl, atomicPurchase_sequence_sold_invariant emptyCounters 1 2
    [⟨"a", 10⟩, ⟨"b", 10⟩, ⟨"c", 10⟩] rfl⟩

/-- C2: the atomic purchase script reads sold and user_count with absent
keys as 0; when sold is at or above max_items it replies sold-out with the
current values and no mutation; else when user_count is at or above
max_user_items it replies user-limit with the current values and no
mutation; else it increments both counters (touching nothing else) and
replies success with sold+1 and user_count+1. -/
theorem atomicPurchase_functional_spec (st : CounterState) (saleId : Nat)
    (userId : String) (maxItems maxUserItems : Nat) :
    (st.sold saleId ≥ maxItems →
      atomicPurchase st saleId userId maxItems maxUserItems =
        (⟨false, "sale_sold_out", st.sold saleId, st.userCount userId saleId⟩, st)) ∧
    (st.sold saleId < maxItems → st.userCount userId saleId ≥ maxUserItems →
      atomicPurchase st saleId userId maxItems maxUserItems =
        (⟨false, "user_limit_exceeded", st.sold saleId, st.userCount userId saleId⟩, st)) ∧
    (st.sold saleId < maxItems → st.userCount userId saleId < maxUserItems →
      (atomicPurchase st saleId userId maxItems maxUserItems).1 =
        ⟨true, "success", st.sold saleId + 1, st.userCount userId saleId + 1⟩ ∧
      (atomicPurchase st saleId userId maxItems maxUserItems).2.sold saleId =
        st.sold saleId + 1 ∧
      (atomicPurchase st saleId userId maxItems maxUserItems).2.userCount userId saleId =
        st.userCount userId saleId + 1 ∧
      (∀ s, s ≠ saleId →
        (atomicPurchase st saleId userId maxItems maxUserItems).2.sold s = st.sold s) ∧
      (∀ u s, ¬(u = userId ∧ s = saleId) →
        (atomicPurchase st saleId userId maxItems maxUserItems).2.userCount u s =
          st.userCount u s) ∧
      (atomicPurchase st saleId userId maxItems maxUserItems).2.available = st.available ∧
      (atomicPurchase st saleId userId maxItems maxUserItems).2.activeSaleId =
        st.activeSaleId) := by
  refine ⟨fun h1 => ?_, fun h1 h2 => ?_, fun h1 h2 => ?_⟩
  · simp [atomicPurchase, h1]
  · simp [atomicPurchase, Nat.not_le.mpr h1, h2]
  · have hA := Nat.not_le.mpr h1
    have hB := Nat.not_le.mpr h2
    refine ⟨?_, ?_, ?_, ?_, ?_, ?_, ?_⟩
    · simp [atomicPurchase, hA, hB]
    · simp [atomicPurchase, hA, hB, Function.update]
    · simp [atomicPurchase, hA, hB]
    · intro s hs
      simp [atomicPurchase, hA, hB, Function.update, hs]
    · intro u s hus
      simp [atomicPurchase, hA, hB, hus]
    · simp [atomicPurchase, hA, hB]
    · simp [atomicPurchase, hA, hB]

/-- Witness for C2 at a concrete input: the success branch from the empty
counter state with the production caps. -/
theorem atomicPurchase_functional_spec_witness :
    (emptyCounters.sold 1 < 10000 ∧ emptyCounters.userCount "u1" 1 < 10) ∧
    (atomicPurchase emptyCounters 1 "u1" 10000 10).1 = ⟨true, "success", 1, 1⟩ :=
  ⟨⟨by decide, by decide⟩,
    ((atomicPurchase_functional_spec emptyCounters 1 "u1" 10000 10).2.2
      (by decide) (by decide)).1⟩

/-- C7 counterexample: after Setup(1, 10000) and one successful purchase the
sold counter is 1, and re-invoking Setup with the very same sale_id resets
it to 0 — contradicting the claim that counters are reset only when Setup
is called with a new sale_id. -/
theorem setupSale_resets_same_saleId_counterexample :
    ((atomicPurchase (setupSale emptyCounters 1 10000) 1 "u1" 10000 10).2).sold 1 = 1 ∧
    (setupSale ((atomicPurchase (setupSale emptyCounters 1 10000) 1 "u1" 10000 10).2)
      1 10000).sold 1 = 0 := by
  constructor <;> decide

/-- C7 amended: Setup(sale_id, items) is idempotent for the same sale_id —
running it twice with no interleaving purchases yields a counter state
identical to running it once — but it unconditionally resets the sold
counter to 0 on every invocation, including re-invocation with the sale_id
it was already set up with. -/
theorem setupSale_idempotent_and_resets (st : CounterState) (saleId items : Nat) :
    setupSale (setupSale st saleId items) saleId items = setupSale st saleId items ∧
    (setupSale st saleId items).sold saleId = 0 := by
  constructor
  · simp [setupSale, Function.update_idem]
  · simp [setupSale, Function.update]

/-- A row of the checkout_attempts table, as carried by the Checkout model
(models.CheckoutAttempt); timestamps are Unix seconds. -/
structure CheckoutAttempt where
  id : Nat
  saleId : Nat
  userId : String
  itemId : String
  code : String
  status : String
  expiresAt : Nat
  purchased : Bool
  deriving DecidableEq, Repr

/-- A row of the purchases table (models.Purchase as inserted by
CreatePurchase); prices are modelled as exact rationals. -/
structure PurchaseRow where
  id : Nat
  saleId : Nat
  userId : String
  itemId : String
  code : String
  checkoutId : Nat
  price : ℚ
  status : String
  purchasedAt : Nat
  deriving DecidableEq, Repr

/-- An item of the runtime catalog (models.Item, creation timestamp
omitted). -/
structure Item where
  id : String
  name : String
  description : String
  price : ℚ
  deriving DecidableEq, Repr

/-- State of the record-store tables touched by the purchase path. -/
structure DbState where
  attempts : List CheckoutAttempt
  purchases : List PurchaseRow
  nextPurchaseId : Nat
  nextAttemptId : Nat
  deriving DecidableEq, Repr

/-- Embedding of PostgresDB.CreatePurchase: INSERT into purchases returning
the generated id.  The Go handler never fills the purchase's Code field, so
the inserted row carries the zero value for code. -/
def createPurchaseRow (db : DbState) (p : PurchaseRow) : DbState × Nat :=
  let pid := db.nextPurchaseId
  ({ db with
      purchases := db.purchases ++ [{ p with id := pid }]
      nextPurchaseId := pid + 1 }, pid)

/-- Embedding of PostgresDB.UpdateCheckout: UPDATE checkout_attempts SET
status, purchased WHERE id matches. -/
def updateCheckoutRow (db : DbState) (ck : CheckoutAttempt) : DbState :=
  { db with
      attempts := db.attempts.map fun a =>
        if a.id = ck.id then { a with status := ck.status, purchased := ck.purchased }
        else a }

/-- Success flags for the fallible record-store calls issued by
completePurchase, in order: BeginTransaction, CreatePurchase,
UpdateCheckout, Commit. -/
structure RsOutcomes where
  beginOk : Bool
  createOk : Bool
  updateOk : Bool
  commitOk : Bool
  deriving DecidableEq, Repr

/-- The parts of the purchase HTTP response relevant here. -/
structure PurchaseResponseM where
  success : Bool
  httpStatus : Nat
  purchaseId : Nat
  userPurchases : Nat
  deriving DecidableEq, Repr

/-- Embedding of PurchaseHandler.completePurchase.  Faithful to the Go: it
opens a transaction but issues CreatePurchase and UpdateCheckout on the
plain db handle (auto-commit), never re-reads the stored attempt row and
never re-checks its status; consequently the writes persist even when the
transaction handle is later rolled back or its commit fails. -/
def completePurchase (o : RsOutcomes) (db : DbState) (checkout : CheckoutAttempt)
    (item : Item) (userPurchases : Nat) (now : Nat) : PurchaseResponseM × DbState :=
  if o.beginOk = false then
    (⟨false, 500, 0, 0⟩, db)
  else if o.createOk = false then
    (⟨false, 500, 0, 0⟩, db)
  else
    let created := createPurchaseRow db
      ⟨0, checkout.saleId, checkout.userId, checkout.itemId, "", checkout.id,
        item.price, "completed", now⟩
    if o.updateOk = false then
      (⟨false, 500, 0, 0⟩, created.1)
    else
      let db2 := updateCheckoutRow created.1
        { checkout with status := "used", purchased := true }
      if o.commitOk = false then
        (⟨false, 500, 0, 0⟩, db2)
      else
        (⟨true, 200, created.2, userPurchases⟩, db2)

/-- Steps 5-6 of processPurchase: the atomic decision on the counter store
followed, on success, by completePurchase.  The counter store is never
touched again after the decision, whatever the record-store outcomes.
The switch on the reply message is the Go handler's: its sold-out case
matches the literal sold_out, which the script's sale_sold_out message
never equals, so a sold-out reply falls through to the default 500
response; only user_limit_exceeded reaches the 409 branch. -/
def purchaseFinalize (o : RsOutcomes) (cs : CounterState) (db : DbState)
    (checkout : CheckoutAttempt) (item : Item) (now : Nat) :
    PurchaseResponseM × CounterState × DbState :=
  let dec := atomicPurchase cs checkout.saleId checkout.userId 10000 10
  if dec.1.ok then
    let fin := completePurchase o db checkout item dec.1.userCount now
    (fin.1, dec.2, fin.2)
  else if dec.1.msg = "user_limit_exceeded" then
    (⟨false, 409, 0, dec.1.userCount⟩, dec.2, db)
  else
    (⟨false, 500, 0, 0⟩, dec.2, db)

/-- The attempt row as stored after a first racer already consumed the
code: status used, purchased true. -/
def usedAttemptRow : CheckoutAttempt :=
  ⟨7, 1, "u1", "item_a", "CHK_ab12cd34_123", "used", 2000, true⟩

/-- The same attempt as loaded by a second racer before the first
finalized: status still pending in its in-memory copy. -/
def staleAttemptCopy : CheckoutAttempt :=
  ⟨7, 1, "u1", "item_a", "CHK_ab12cd34_123", "pending", 2000, false⟩

/-- Catalog item used in the concrete scenarios. -/
def itemASample : Item := ⟨"item_a", "Sample", "sample item", 99⟩

/-- Record-store state after the first racer won: the attempt row is used
and one purchase row for checkout 7 exists. -/
def dbAfterFirstWin : DbState :=
  ⟨[usedAttemptRow], [⟨1, 1, "u1", "item_a", "", 7, 99, "completed", 900⟩], 2, 8⟩

/-- C3: the code is wrong.  completePurchase, run by a second racer whose
in-memory attempt copy is still pending while the stored row is already
used, performs no FOR UPDATE re-read and no pending re-check: it returns
success 200 and inserts a second purchase row for the same checkout,
instead of aborting with ALREADY_USED as the claim states. -/
theorem completePurchase_no_recheck_code_bug :
    (completePurchase ⟨true, true, true, true⟩ dbAfterFirstWin staleAttemptCopy
      itemASample 2 950).1.success = true ∧
    (completePurchase ⟨true, true, true, true⟩ dbAfterFirstWin staleAttemptCopy
      itemASample 2 950).1.httpStatus = 200 ∧
    ((completePurchase ⟨true, true, true, true⟩ dbAfterFirstWin staleAttemptCopy
      itemASample 2 950).2.purchases.filter fun p => p.checkoutId = 7).length = 2 := by
  refine ⟨rfl, rfl, ?_⟩
  rfl

/-- C4 counterexample: with the counters freshly set up, a successful
atomic decision followed by a CreatePurchase failure yields HTTP 500 while
the sold counter stays at 1 and the per-user count stays at 1 — neither is
decremented back to its pre-decision value 0 as the claim states. -/
theorem purchaseFinalize_no_compensation_counterexample :
    (purchaseFinalize ⟨true, false, true, true⟩ (setupSale emptyCounters 1 10000)
      dbAfterFirstWin staleAttemptCopy itemASample 950).1.httpStatus = 500 ∧
    (purchaseFinalize ⟨true, false, true, true⟩ (setupSale emptyCounters 1 10000)
      dbAfterFirstWin staleAttemptCopy itemASample 950).2.1.sold 1 = 1 ∧
    (purchaseFinalize ⟨true, false, true, true⟩ (setupSale emptyCounters 1 10000)
      dbAfterFirstWin staleAttemptCopy itemASample 950).2.1.userCount "u1" 1 = 1 := by
  refine ⟨rfl, rfl, rfl⟩

lemma atomicPurchase_userCount_succ (st : CounterState) (saleId : Nat)
    (userId : String) (maxItems maxUserItems : Nat)
    (hok : (atomicPurchase st saleId userId maxItems maxUserItems).1.ok = true) :
    (atomicPurchase st saleId userId maxItems maxUserItems).2.userCount userId saleId =
      st.userCount userId saleId + 1 := by
  unfold atomicPurchase at hok ⊢
  by_cases h1 : st.sold saleId ≥ maxItems
  · simp [h1] at hok
  · by_cases h2 : st.userCount userId saleId ≥ maxUserItems
    · simp [h1, h2] at hok
    · simp [h1, h2]

/-- C4 amended: whenever any record-store call of step 6 fails after the
counter-store decision returned success, the coordinator returns
INTERNAL_ERROR (HTTP 500) and performs no compensation: both the sold
counter of the sale and the per-user count of the purchasing user remain
at their incremented values. -/
theorem purchaseFinalize_failure_leaves_counters (o : RsOutcomes)
    (cs : CounterState) (db : DbState) (ck : CheckoutAttempt) (it : Item) (now : Nat)
    (hfail : o.beginOk = false ∨ o.createOk = false ∨ o.updateOk = false ∨
      o.commitOk = false)
    (hok : (atomicPurchase cs ck.saleId ck.userId 10000 10).1.ok = true) :
    (purchaseFinalize o cs db ck it now).1.httpStatus = 500 ∧
    (purchaseFinalize o cs db ck it now).1.success = false ∧
    (purchaseFinalize o cs db ck it now).2.1.sold ck.saleId = cs.sold ck.saleId + 1 ∧
    (purchaseFinalize o cs db ck it now).2.1.userCount ck.userId ck.saleId =
      cs.userCount ck.userId ck.saleId + 1 := by
  have hsold : (atomicPurchase cs ck.saleId ck.userId 10000 10).2.sold ck.saleId =
      cs.sold ck.saleId + 1 := by
    rw [atomicPurchase_sold_eq, hok]
    simp
  have huser : (atomicPurchase cs ck.saleId ck.userId 10000 10).2.userCount
      ck.userId ck.saleId = cs.userCount ck.userId ck.saleId + 1 :=
    atomicPurchase_userCount_succ cs ck.saleId ck.userId 10000 10 hok
  rcases o with ⟨b1, b2, b3, b4⟩
  cases b1 <;> cases b2 <;> cases b3 <;> cases b4 <;>
    simp_all [purchaseFinalize, completePurchase, hsold, huser]

/-- Witness for the C4 amended theorem at a concrete input. -/
theorem purchaseFinalize_failure_leaves_counters_witness :
    ((false : Bool) = false ∨ (true : Bool) = false ∨ (true : Bool) = false ∨
      (true : Bool) = false) ∧
    (atomicPurchase (setupSale emptyCounters 1 10000) 1 "u1" 10000 10).1.ok = true ∧
    ((purchaseFinalize ⟨false, true, true, true⟩ (setupSale emptyCounters 1 10000)
        dbAfterFirstWin staleAttemptCopy itemASample 950).1.httpStatus = 500 ∧
      (purchaseFinalize ⟨false, true, true, true⟩ (setupSale emptyCounters 1 10000)
        dbAfterFirstWin staleAttemptCopy itemASample 950).1.success = false ∧
      (purchaseFinalize ⟨false, true, true, true⟩ (setupSale emptyCounters 1 10000)
        dbAfterFirstWin staleAttemptCopy itemASample 950).2.1.sold 1 =
        (setupSale emptyCounters 1 10000).sold 1 + 1 ∧
      (purchaseFinalize ⟨false, true, true, true⟩ (setupSale emptyCounters 1 10000)
        dbAfterFirstWin staleAttemptCopy itemASample 950).2.1.userCount "u1" 1 =
        (setupSale emptyCounters 1 10000).userCount "u1" 1 + 1) :=
  ⟨Or.inl rfl, by decide,
    purchaseFinalize_failure_leaves_counters ⟨false, true, true, true⟩
      (setupSale emptyCounters 1 10000) dbAfterFirstWin staleAttemptCopy
      itemASample 950 (Or.inl rfl) (by decide)⟩

/-- Embedding of simpleHash: hash = hash*31 + rune over the characters of
the string, in wrapping uint32 arithmetic. -/
def simpleHash (s : String) : Nat :=
  s.data.foldl (fun h c => (h * 31 + c.toNat) % 4294967296) 0

/-- One entry of the hard-coded catalog template table of the item
service. -/
structure ItemTemplate where
  baseName : String
  description : String
  basePrice : ℚ
  deriving DecidableEq, Repr

/-- The ten templates of generateSingleItem, with the Go float literals as
exact decimal rationals. -/
def itemTemplates : List ItemTemplate :=
  [⟨"Flash Electronics", "High-tech gadget at incredible price", 29999 / 100⟩,
   ⟨"Designer Fashion", "Premium clothing item with limited availability", 14999 / 100⟩,
   ⟨"Home Essential", "Must-have household item for modern living", 7999 / 100⟩,
   ⟨"Sports Gear", "Professional quality sports equipment", 19999 / 100⟩,
   ⟨"Beauty Product", "Premium skincare and cosmetic item", 8999 / 100⟩,
   ⟨"Kitchen Tool", "Essential cooking equipment for every chef", 5999 / 100⟩,
   ⟨"Gaming Accessory", "Professional gaming equipment", 12999 / 100⟩,
   ⟨"Health Supplement", "Premium wellness and health product", 4999 / 100⟩,
   ⟨"Book Collection", "Bestselling books and educational materials", 2999 / 100⟩,
   ⟨"Art Supply", "Professional quality creative materials", 3999 / 100⟩]

/-- Embedding of ItemServiceImpl.ValidateItemID: non-empty, length between
3 and 50, characters alphanumeric, underscore or hyphen. -/
def isValidItemIDChar (c : Char) : Bool :=
  (('a' ≤ c && c ≤ 'z') || ('A' ≤ c && c ≤ 'Z') || ('0' ≤ c && c ≤ '9') ||
    c = '_' || c = '-')

/-- The validation predicate itself. -/
def validateItemID (itemID : String) : Bool :=
  !(itemID == "") && (3 ≤ itemID.length) && (itemID.length ≤ 50) &&
    itemID.data.all isValidItemIDChar

/-- Embedding of generateSingleItem (its pure content; the creation
timestamp is omitted): the item number is simpleHash mod 10000 for ids
with the item underscore shape and 1 otherwise; the template is selected
by item number mod 10; the price is base times (0.8 + (hash mod 40)/100),
truncated to cents — Go truncates with int(p*100)/100, which on these
non-negative values is the floor. -/
def generateSingleItem (itemID : String) : Item :=
  let itemNumber := if itemID.startsWith ("item_") then simpleHash itemID % 10000 else 1
  let template := itemTemplates.getD (itemNumber % itemTemplates.length) ⟨"", "", 0⟩
  let hash := simpleHash itemID
  let priceVariation : ℚ := 8 / 10 + (hash % 40 : ℚ) / 100
  let rawPrice := template.basePrice * priceVariation
  let finalPrice := (⌊rawPrice * 100⌋ : ℚ) / 100
  ⟨itemID, template.baseName ++ " #" ++ Nat.repr itemNumber, template.description, finalPrice⟩

/-- The item service state: its in-memory item cache. -/
structure ItemCache where
  cache : String → Option Item

/-- Embedding of ItemServiceImpl.GetItemByID: validate the id, serve from
the cache when present, otherwise generate on demand and cache the
result. -/
def getItemByID (st : ItemCache) (itemID : String) : Option (Item × ItemCache) :=
  if validateItemID itemID = true then
    match st.cache itemID with
    | some it => some (it, st)
    | none =>
      let it := generateSingleItem itemID
      some (it, ⟨Function.update st.cache itemID (some it)⟩)
  else none

/-- C10: for a valid item_id that was not previously created through
GenerateItems (its cache slot is absent or already holds the on-demand
item), GetItemByID returns the item computed by the deterministic pure
function generateSingleItem of the item_id alone, and a repeated call
returns the very same item and state — so name, description and price,
and in particular the price resolved at checkout time and at purchase
time, coincide. -/
theorem getItemByID_deterministic (st : ItemCache) (itemID : String)
    (hvalid : validateItemID itemID = true)
    (hnotgen : st.cache itemID = none ∨
      st.cache itemID = some (generateSingleItem itemID)) :
    ∃ st2 : ItemCache,
      getItemByID st itemID = some (generateSingleItem itemID, st2) ∧
      getItemByID st2 itemID = some (generateSingleItem itemID, st2) := by
  rcases hnotgen with h | h
  · refine ⟨⟨Function.update st.cache itemID (some (generateSingleItem itemID))⟩, ?_, ?_⟩
    · simp [getItemByID, hvalid, h]
    · simp [getItemByID, hvalid, Function.update]
  · exact ⟨st, by simp [getItemByID, hvalid, h], by simp [getItemByID, hvalid, h]⟩

/-- Witness for C10 at a concrete input: the id item_a against the empty
cache. -/
theorem getItemByID_deterministic_witness :
    validateItemID ("item_a") = true ∧
    ((⟨fun _ => none⟩ : ItemCache).cache ("item_a") = none ∨
      (⟨fun _ => none⟩ : ItemCache).cache ("item_a") =
        some (generateSingleItem ("item_a"))) ∧
    ∃ st2 : ItemCache,
      getItemByID ⟨fun _ => none⟩ ("item_a") =
        some (generateSingleItem ("item_a"), st2) ∧
      getItemByID st2 ("item_a") = some (generateSingleItem ("item_a"), st2) :=
  ⟨by decide, Or.inl rfl,
    getItemByID_deterministic ⟨fun _ => none⟩ ("item_a") (by decide) (Or.inl rfl)⟩

/-- Embedding of CheckoutHandler.generateCheckoutCode: the literal CHK_,
the first 8 characters of the freshly drawn UUID string, an underscore,
and the %d rendering of the Unix time modulo 10000.  The UUID string and
the clock reading are inputs. -/
def generateCheckoutCode (uuidStr : String) (unixTime : Nat) : String :=
  "CHK_" ++ uuidStr.take 8 ++ "_" ++ Nat.repr (unixTime % 10000)

/-- A hexadecimal character, following the claim's words. -/
def isHexChar (c : Char) : Bool :=
  c.isDigit || ('a' ≤ c && c ≤ 'f') || ('A' ≤ c && c ≤ 'F')

/-- Modelled from the claim's words (refinement definition, not from the
source): the asserted format CHK_, exactly 8 hex characters, an
underscore, exactly 4 decimal digits. -/
def specCodeFormat (s : String) : Bool :=
  (s.length == 17) && (s.take 4 == "CHK_") && ((s.drop 4).take 8).data.all isHexChar &&
    ((s.drop 12).take 1 == "_") && ((s.drop 13).length == 4) &&
    (s.drop 13).data.all Char.isDigit

/-- C9 counterexample: at any instant whose Unix time is congruent to 7
modulo 10000 the generated code carries a 1-digit suffix, so the claimed
always-exactly-4-digit format is violated. -/
theorem generateCheckoutCode_not_always_4_digits :
    generateCheckoutCode ("ab12cd34") 20007 = "CHK_ab12cd34_7" ∧
    specCodeFormat (generateCheckoutCode ("ab12cd34") 20007) = false := by
  constructor <;> decide

lemma digitChar_isDigit (k : Nat) (hk : k < 10) : (Nat.digitChar k).isDigit = true := by
  interval_cases k <;> decide

lemma toDigitsCore_length_ge (b : Nat) :
    ∀ (f n : Nat) (l : List Char), l.length ≤ (Nat.toDigitsCore b f n l).length := by
  intro f
  induction f with
  | zero => intro n l; simp [Nat.toDigitsCore]
  | succ f ih =>
    intro n l
    simp only [Nat.toDigitsCore]
    split
    · simp
    · calc l.length ≤ (Nat.digitChar (n % b) :: l).length := by simp
        _ ≤ _ := ih (n / b) (Nat.digitChar (n % b) :: l)

lemma toDigitsCore_all_digits :
    ∀ (f n : Nat) (l : List Char), (∀ c ∈ l, c.isDigit = true) →
      ∀ c ∈ Nat.toDigitsCore 10 f n l, c.isDigit = true := by
  intro f
  induction f with
  | zero => intro n l hl; simpa [Nat.toDigitsCore] using hl
  | succ f ih =>
    intro n l hl c hc
    simp only [Nat.toDigitsCore] at hc
    have hd : (Nat.digitChar (n % 10)).isDigit = true :=
      digitChar_isDigit (n % 10) (Nat.mod_lt n (by norm_num))
    split at hc
    · rcases List.mem_cons.mp hc with h | h
      · rw [h]; exact hd
      · exact hl c h
    · refine ih (n / 10) (Nat.digitChar (n % 10) :: l) ?_ c hc
      intro d hdmem
      rcases List.mem_cons.mp hdmem with h | h
      · rw [h]; exact hd
      · exact hl d h

lemma repr_len_pos (n : Nat) : 1 ≤ (Nat.repr n).length := by
  show 1 ≤ (Nat.toDigitsCore 10 (n + 1) n []).length
  simp only [Nat.toDigitsCore]
  split
  · simp
  · calc 1 = (Nat.digitChar (n % 10) :: ([] : List Char)).length := by simp
      _ ≤ _ := toDigitsCore_length_ge 10 n (n / 10) (Nat.digitChar (n % 10) :: [])

lemma repr_all_digits (n : Nat) : ∀ c ∈ (Nat.repr n).data, c.isDigit = true := by
  show ∀ c ∈ Nat.toDigitsCore 10 (n + 1) n [], c.isDigit = true
  exact toDigitsCore_all_digits (n + 1) n [] (by simp)

/-- C9 amended: the generated code is the literal CHK_, the 8 characters
sliced from the UUID string, an underscore, and the unpadded decimal
rendering of the Unix time modulo 10000 — between 1 and 4 digits, not
always exactly 4. -/
theorem generateCheckoutCode_format (u : String) (t : Nat) (hu : u.length = 8) :
    generateCheckoutCode u t = "CHK_" ++ u ++ "_" ++ Nat.repr (t % 10000) ∧
    1 ≤ (Nat.repr (t % 10000)).length ∧
    (Nat.repr (t % 10000)).length ≤ 4 ∧
    ∀ c ∈ (Nat.repr (t % 10000)).data, c.isDigit = true := by
  refine ⟨?_, repr_len_pos (t % 10000), ?_, repr_all_digits (t % 10000)⟩
  · have htake : u.take 8 = u := by
      apply String.ext
      rw [String.data_take]
      have h2 : u.data.length = 8 := hu
      rw [← h2]
      exact u.data.take_length
    rw [generateCheckoutCode, htake]
  · refine Nat.repr_length (t % 10000) 4 (by norm_num) ?_
    have := Nat.mod_lt t (show 0 < 10000 by norm_num)
    norm_num
    exact this

/-- Witness for the C9 amended theorem at a concrete input. -/
theorem generateCheckoutCode_format_witness :
    ("ab12cd34" : String).length = 8 ∧
    (generateCheckoutCode ("ab12cd34") 21234 =
        "CHK_" ++ "ab12cd34" ++ "_" ++ Nat.repr (21234 % 10000) ∧
      1 ≤ (Nat.repr (21234 % 10000)).length ∧
      (Nat.repr (21234 % 10000)).length ≤ 4 ∧
      ∀ c ∈ (Nat.repr (21234 % 10000)).data, c.isDigit = true) :=
  ⟨by decide, generateCheckoutCode_format ("ab12cd34") 21234 (by decide)⟩

/-- A sales-table row (models.Sale; timestamps are Unix seconds, creation
and update stamps omitted). -/
structure Sale where
  id : Nat
  startTime : Nat
  endTime : Nat
  itemsAvailable : Nat
  itemsSold : Nat
  active : Bool
  deriving DecidableEq, Repr

/-- Embedding of PostgresDB.CreateCheckout (CreateCheckoutAttempt): an
INSERT under the unique constraint on code — the insert fails exactly when
a row with the same code already exists, the only failure source modelled
for this statement. -/
def createCheckout (db : DbState) (ck : CheckoutAttempt) : Option (DbState × Nat) :=
  if db.attempts.any fun a => a.code == ck.code then none
  else
    some ({ db with
        attempts := db.attempts ++ [{ ck with id := db.nextAttemptId }]
        nextAttemptId := db.nextAttemptId + 1 }, db.nextAttemptId)

/-- Outcome of processCheckout; internalError covers a CreateCheckout
failure (the handler's HTTP 500 response). -/
inductive CheckoutResult where
  | noActiveSale
  | saleNotActive
  | invalidItem
  | internalError
  | issued (code : String) (expiresAt : Nat)
  deriving DecidableEq, Repr

/-- Embedding of CheckoutHandler.processCheckout after request validation:
the active-sale lookup result, the clock reading and the drawn UUID string
are inputs; the record store and the item cache are threaded through.
The time-window check is the literal now.Before(start) or now.After(end)
of the Go; the attempt is inserted with status pending and a 10-minute
expiry; the best-effort Redis code caching is non-fatal and not
represented. -/
def processCheckout (db : DbState) (ist : ItemCache) (saleQ : Option Sale)
    (now : Nat) (userId itemId uuidStr : String) :
    CheckoutResult × DbState × ItemCache :=
  match saleQ with
  | none => (.noActiveSale, db, ist)
  | some sale =>
    if now < sale.startTime ∨ now > sale.endTime then (.saleNotActive, db, ist)
    else
      match getItemByID ist itemId with
      | none => (.invalidItem, db, ist)
      | some (_, ist2) =>
        let code := generateCheckoutCode uuidStr now
        let attempt : CheckoutAttempt :=
          ⟨0, sale.id, userId, itemId, code, "pending", now + 600, false⟩
        match createCheckout db attempt with
        | none => (.internalError, db, ist2)
        | some (db2, _) => (.issued code (now + 600), db2, ist2)

/-- A sale running over the first hour of the epoch. -/
def saleSample : Sale := ⟨1, 0, 3600, 10000, 0, true⟩

/-- An empty record store. -/
def emptyDb : DbState := ⟨[], [], 1, 1⟩

/-- An empty item cache. -/
def emptyItems : ItemCache := ⟨fun _ => none⟩

/-- C5 counterexample: a checkout arriving exactly at the sale's end time
(now = end = 3600) is NOT rejected — it passes the window check and is
issued a code — contradicting the claim that now = end returns
SALE_NOT_ACTIVE. -/
theorem checkout_at_end_time_counterexample :
    (processCheckout emptyDb emptyItems (some saleSample) 3600 "u1" "item_a"
      "ab12cd34").1 = CheckoutResult.issued ("CHK_ab12cd34_3600") 4200 := by
  decide

/-- C5 amended: the checkout handler returns SALE_NOT_ACTIVE exactly when
now < start or now > end — the accepted window is the closed interval, so
a checkout at exactly the end instant proceeds. -/
theorem checkout_window_check (db : DbState) (ist : ItemCache) (sale : Sale)
    (now : Nat) (userId itemId uuidStr : String) :
    (processCheckout db ist (some sale) now userId itemId uuidStr).1 =
        CheckoutResult.saleNotActive ↔
      (now < sale.startTime ∨ now > sale.endTime) := by
  by_cases hw : now < sale.startTime ∨ now > sale.endTime
  · simp [processCheckout, hw]
  · simp only [processCheckout, hw, if_false, iff_false]
    rcases hg : getItemByID ist itemId with _ | ⟨it, ist2⟩
    · simp [hg]
    · simp only [hg]
      rcases hcc : createCheckout db
          ⟨0, sale.id, userId, itemId, generateCheckoutCode uuidStr now,
            "pending", now + 600, false⟩ with _ | ⟨db2, aid⟩
      · simp [hcc]
      · simp [hcc]

/-- Witness for the C5 amended theorem: the concrete end-instant checkout
is not a SALE_NOT_ACTIVE rejection, matching the right side being false. -/
theorem checkout_window_check_witness :
    ((processCheckout emptyDb emptyItems (some saleSample) 3600 "u1" "item_a"
        "ab12cd34").1 = CheckoutResult.saleNotActive ↔
      ((3600 : Nat) < saleSample.startTime ∨ (3600 : Nat) > saleSample.endTime)) :=
  checkout_window_check emptyDb emptyItems saleSample 3600 "u1" "item_a" "ab12cd34"

/-- Record store already holding an attempt whose code equals the one the
next checkout will generate at now = 3600 with UUID slice ab12cd34. -/
def collidingDb : DbState :=
  ⟨[⟨1, 1, "u1", "item_a", "CHK_ab12cd34_3600", "pending", 4200, false⟩], [], 1, 2⟩

/-- C6 counterexample: a single unique-constraint collision — far below
the claimed CODE_RETRY_MAX = 3 — already surfaces an error with the record
store unchanged: no fresh code is generated and no retry happens. -/
theorem checkout_no_retry_counterexample :
    (processCheckout collidingDb emptyItems (some saleSample) 3600 "u2" "item_a"
      "ab12cd34").1 = CheckoutResult.internalError ∧
    (processCheckout collidingDb emptyItems (some saleSample) 3600 "u2" "item_a"
      "ab12cd34").2.1 = collidingDb := by
  constructor <;> decide

/-- C6 amended: checkout generates one code and performs one insert; when
that code collides with an existing row the handler returns an internal
error immediately, with the record store unchanged — it never regenerates
or retries. -/
theorem checkout_single_insert_on_collision (db : DbState) (ist : ItemCache)
    (sale : Sale) (now : Nat) (userId itemId uuidStr : String)
    (hw : ¬(now < sale.startTime ∨ now > sale.endTime))
    (hit : validateItemID itemId = true)
    (hcoll : (db.attempts.any fun a =>
      a.code == generateCheckoutCode uuidStr now) = true) :
    (processCheckout db ist (some sale) now userId itemId uuidStr).1 =
      CheckoutResult.internalError ∧
    (processCheckout db ist (some sale) now userId itemId uuidStr).2.1 = db := by
  simp only [processCheckout, hw, if_false]
  rcases hc : ist.cache itemId with _ | it
  · simp [getItemByID, hit, hc, createCheckout, hcoll]
  · simp [getItemByID, hit, hc, createCheckout, hcoll]

/-- Witness for the C6 amended theorem at a concrete input. -/
theorem checkout_single_insert_on_collision_witness :
    (¬((3600 : Nat) < saleSample.startTime ∨ (3600 : Nat) > saleSample.endTime)) ∧
    validateItemID ("item_a") = true ∧
    (collidingDb.attempts.any fun a =>
      a.code == generateCheckoutCode ("ab12cd34") 3600) = true ∧
    ((processCheckout collidingDb emptyItems (some saleSample) 3600 "u2" "item_a"
        "ab12cd34").1 = CheckoutResult.internalError ∧
      (processCheckout collidingDb emptyItems (some saleSample) 3600 "u2" "item_a"
        "ab12cd34").2.1 = collidingDb) :=
  ⟨by decide, by decide, by decide,
    checkout_single_insert_on_collision collidingDb emptyItems saleSample 3600
      "u2" "item_a" "ab12cd34" (by decide) (by decide) (by decide)⟩

/-- The sales table visible to the sale service. -/
structure SalesDb where
  sales : List Sale
  nextSaleId : Nat
  deriving DecidableEq, Repr

/-- Embedding of PostgresDB.GetActiveSale: the active row with the
greatest start time (ORDER BY start_time DESC LIMIT 1). -/
def getActiveSale (db : SalesDb) : Option Sale :=
  (db.sales.filter fun s => s.active).foldl
    (fun acc s =>
      match acc with
      | none => some s
      | some b => if s.startTime > b.startTime then some s else some b) none

/-- Embedding of PostgresDB.DeactivateSale: UPDATE sales SET active = false
WHERE id matches. -/
def deactivateSaleRow (db : SalesDb) (saleId : Nat) : SalesDb :=
  { db with
      sales := db.sales.map fun s =>
        if s.id = saleId then { s with active := false } else s }

/-- Success flags for the fallible calls of CreateHourlySale: the
deactivate-existing-sales step, the sale row insert, and the Redis setup
script. -/
structure SaleOutcomes where
  deacOk : Bool
  createOk : Bool
  setupOk : Bool
  deriving DecidableEq, Repr

/-- Embedding of SaleServiceImpl.CreateHourlySale: start is the clock
floored to the hour and end one hour later; a failure of the
deactivate-existing step is logged and ignored; a failing insert aborts
with an error; a failing Redis setup deactivates the just-created row in
the record store and aborts with an error. -/
def createHourlySale (o : SaleOutcomes) (db : SalesDb) (cs : CounterState)
    (now : Nat) : Option Sale × SalesDb × CounterState :=
  let startTime := now / 3600 * 3600
  let endTime := startTime + 3600
  let db1 :=
    if o.deacOk then
      match getActiveSale db with
      | some act => deactivateSaleRow db act.id
      | none => db
    else db
  if o.createOk = false then (none, db1, cs)
  else
    let newId := db1.nextSaleId
    let sale : Sale := ⟨newId, startTime, endTime, 10000, 0, true⟩
    let db2 : SalesDb := ⟨db1.sales ++ [sale], newId + 1⟩
    if o.setupOk = false then (none, deactivateSaleRow db2 newId, cs)
    else (some sale, db2, setupSale cs newId 10000)

lemma mem_deactivateSaleRow_active_false (db : SalesDb) (saleId : Nat) :
    ∀ s ∈ (deactivateSaleRow db saleId).sales, s.id = saleId → s.active = false := by
  intro s hs hid
  simp only [deactivateSaleRow, List.mem_map] at hs
  rcases hs with ⟨a, ha, rfl⟩
  by_cases h : a.id = saleId
  · simp [h]
  · rw [if_neg h] at hid ⊢
    exact absurd hid h

/-- C8: with the insert and the counter setup succeeding, a failure to
deactivate the previously active sale is non-fatal — the new sale is still
created, returned active and present in the record store — whereas a
counter-store setup failure after the insert yields no sale and leaves
every record-store row carrying the new sale's id deactivated. -/
theorem createHourlySale_error_handling (db : SalesDb) (cs : CounterState)
    (now : Nat) :
    ((createHourlySale ⟨false, true, true⟩ db cs now).1 =
        some ⟨db.nextSaleId, now / 3600 * 3600, now / 3600 * 3600 + 3600, 10000, 0, true⟩ ∧
      (⟨db.nextSaleId, now / 3600 * 3600, now / 3600 * 3600 + 3600, 10000, 0, true⟩ : Sale) ∈
        (createHourlySale ⟨false, true, true⟩ db cs now).2.1.sales) ∧
    ((createHourlySale ⟨true, true, false⟩ db cs now).1 = none ∧
      ∀ s ∈ (createHourlySale ⟨true, true, false⟩ db cs now).2.1.sales,
        s.id = db.nextSaleId → s.active = false) := by
  refine ⟨⟨?_, ?_⟩, ?_, ?_⟩
  · simp [createHourlySale]
  · simp [createHourlySale]
  · rcases hga : getActiveSale db with _ | act <;>
      simp [createHourlySale, hga, deactivateSaleRow]
  · intro s hs hid
    rcases hga : getActiveSale db with _ | act
    · have hs2 : s ∈ (deactivateSaleRow
          ⟨db.sales ++ [⟨db.nextSaleId, now / 3600 * 3600, now / 3600 * 3600 + 3600,
            10000, 0, true⟩], db.nextSaleId + 1⟩ db.nextSaleId).sales := by
        simpa [createHourlySale, hga] using hs
      exact mem_deactivateSaleRow_active_false _ db.nextSaleId s hs2 hid
    · have hs2 : s ∈ (deactivateSaleRow
          ⟨(deactivateSaleRow db act.id).sales ++
            [⟨db.nextSaleId, now / 3600 * 3600, now / 3600 * 3600 + 3600,
              10000, 0, true⟩], db.nextSaleId + 1⟩ db.nextSaleId).sales := by
        simpa [createHourlySale, hga, deactivateSaleRow] using hs
      exact mem_deactivateSaleRow_active_false _ db.nextSaleId s hs2 hid

end FlashSale
